import Mathlib

/-!
Shallow embedding of the filter-and-aggregate pipeline of `Streamlit_3.py`
(IMDB movie dashboard).  Pandas dataframes are modelled as ordered lists of
records; float columns (`Duration`, `Rating`) as rationals, the integer
`Votes` column as naturals.  Boolean-mask filtering becomes `List.filter`.
-/

/-- One row of the movie dataframe: columns Title, Genre, Duration (hours),
Rating and Votes. -/
structure MovieRecord where
  title : String
  genre : String
  duration : ℚ
  rating : ℚ
  votes : ℕ
deriving DecidableEq, Repr

/-- The resolved sidebar filter state at the point the mask is applied
(lines 130-140 of the source): `selected_genres`, `min_duration`,
`max_duration`, `min_rating`, `min_votes`. -/
structure FilterCriteria where
  selected_genres : List String
  min_duration : ℚ
  max_duration : ℚ
  min_rating : ℚ
  min_votes : ℕ
deriving DecidableEq, Repr

/-- The duration conjuncts of the boolean mask, lines 136-137:
`(filtered_df['Duration'] >= min_duration) & (filtered_df['Duration'] <= max_duration)`. -/
def passesDuration (lo hi d : ℚ) : Bool :=
  decide (lo ≤ d) && decide (d ≤ hi)

/-- The row mask of lines 135-140: duration bounds, `Rating >= min_rating`,
`Votes >= min_votes`. -/
def rowMask (c : FilterCriteria) (r : MovieRecord) : Bool :=
  passesDuration c.min_duration c.max_duration r.duration
    && decide (c.min_rating ≤ r.rating)
    && decide (c.min_votes ≤ r.votes)

/-- Lines 130-140: `filtered_df = df.copy()`, then
`if selected_genres: filtered_df = filtered_df[filtered_df['Genre'].isin(selected_genres)]`
(the empty list is falsy in Python, so an empty selection skips the genre
mask), then the conjunction of the duration, rating and votes masks. -/
def filtered_df (df : List MovieRecord) (c : FilterCriteria) : List MovieRecord :=
  let afterGenre :=
    if c.selected_genres.isEmpty then df
    else df.filter (fun r => c.selected_genres.contains r.genre)
  afterGenre.filter (rowMask c)

/-- Membership characterisation of `filtered_df`, shared by several
theorems below. -/
theorem mem_filtered {df : List MovieRecord} {c : FilterCriteria} {r : MovieRecord} :
    r ∈ filtered_df df c ↔
      r ∈ df ∧ (c.selected_genres = [] ∨ r.genre ∈ c.selected_genres) ∧
      c.min_duration ≤ r.duration ∧ r.duration ≤ c.max_duration ∧
      c.min_rating ≤ r.rating ∧ c.min_votes ≤ r.votes := by
  rcases hg : c.selected_genres with _ | ⟨g, gs⟩
  · simp [filtered_df, hg, rowMask, passesDuration, List.mem_filter, and_assoc]
  · simp only [filtered_df, hg, List.isEmpty_cons, Bool.false_eq_true, if_false,
      List.mem_filter, rowMask, passesDuration, Bool.and_eq_true, decide_eq_true_eq,
      List.contains, List.elem_eq_mem]
    constructor
    · rintro ⟨⟨h1, h2⟩, ⟨⟨h3, h4⟩, h5⟩, h6⟩
      exact ⟨h1, Or.inr h2, h3, h4, h5, h6⟩
    · rintro ⟨h1, h2 | h2, h3, h4, h5, h6⟩
      · exact absurd h2 (List.cons_ne_nil g gs)
      · exact ⟨⟨h1, h2⟩, ⟨⟨h3, h4⟩, h5⟩, h6⟩

/-- C1: a record of the dataset appears in the filtered result iff it
satisfies the conjunction of the four filters: genre membership (or empty
selection), inclusive duration bounds, minimum rating, minimum votes. -/
theorem filtered_mem_iff (df : List MovieRecord) (c : FilterCriteria) (r : MovieRecord)
    (h : r ∈ df) :
    r ∈ filtered_df df c ↔
      ((c.selected_genres = [] ∨ r.genre ∈ c.selected_genres) ∧
       c.min_duration ≤ r.duration ∧ r.duration ≤ c.max_duration ∧
       c.min_rating ≤ r.rating ∧ c.min_votes ≤ r.votes) := by
  rw [mem_filtered]
  simp [h]

/-- Record A of the worked example in the spec (section 8). -/
def movieA : MovieRecord := ⟨"A", "Drama", 2, 15 / 2, 5000⟩

/-- Record B of the worked example in the spec (section 8). -/
def movieB : MovieRecord := ⟨"B", "Comedy", 3 / 2, 6, 200⟩

/-- Criteria of the worked example: all genres, duration ∈ [0, 3],
minimum rating 7, minimum votes 0. -/
def exampleCriteria : FilterCriteria := ⟨[], 0, 3, 7, 0⟩

/-- Witness for C1 at the spec's worked example: record A is in the sample
dataset and passes all four filters, hence is in the filtered result. -/
theorem filtered_mem_iff_witness :
    movieA ∈ [movieA, movieB] ∧ movieA ∈ filtered_df [movieA, movieB] exampleCriteria := by
  refine ⟨List.mem_cons_self _ _, ?_⟩
  exact (filtered_mem_iff [movieA, movieB] exampleCriteria movieA (List.mem_cons_self _ _)).mpr
    ⟨Or.inl rfl, by norm_num [movieA, exampleCriteria], by norm_num [movieA, exampleCriteria],
     by norm_num [movieA, exampleCriteria], by norm_num [movieA, exampleCriteria]⟩

/-- C2: the filtered result is a subsequence of the dataset — every record
occurs in the dataset, none is fabricated or duplicated, and the original
relative order is preserved; an empty result is a perfectly valid value of
the (total) function. -/
theorem filtered_sublist (df : List MovieRecord) (c : FilterCriteria) :
    List.Sublist (filtered_df df c) df := by
  unfold filtered_df
  by_cases hg : c.selected_genres.isEmpty
  · simp only [hg, if_true]
    exact List.filter_sublist df
  · simp only [hg, if_false]
    exact (List.filter_sublist _).trans (List.filter_sublist df)

/-- Arithmetic mean of a series, as computed by pandas `.mean()` on an
exact (rational) model of the column values. -/
def seriesMean (l : List ℚ) : ℚ := l.sum / (l.length : ℚ)

/-- Rendering a value to two decimal places, the `f"{x:.2f}"` format of
lines 151-152, modelled as rounding to the nearest hundredth. -/
def roundTo2 (q : ℚ) : ℚ := ((round (q * 100) : ℤ) : ℚ) / 100

/-- What the results section displays: either the no-matches warning of
line 146, or the four metric cards of lines 149-153. -/
inductive MetricsDisplay where
  | noMatches : MetricsDisplay
  | metrics (total : ℕ) (avgRating : ℚ) (avgDuration : ℚ) (avgVotes : ℤ) : MetricsDisplay
deriving DecidableEq, Repr

/-- Lines 145-153: `if len(filtered_df) == 0:` show the warning, else show
Total Movies, Average Rating (`:.2f`), Average Duration (`:.2f`) and
Average Votes (`:.0f`, nearest integer). -/
def renderResults (df : List MovieRecord) (c : FilterCriteria) : MetricsDisplay :=
  let f := filtered_df df c
  if f.length = 0 then MetricsDisplay.noMatches
  else MetricsDisplay.metrics f.length
    (roundTo2 (seriesMean (f.map (fun r => r.rating))))
    (roundTo2 (seriesMean (f.map (fun r => r.duration))))
    (round (seriesMean (f.map (fun r => (r.votes : ℚ)))))

/-- C3: when the filtered subset is empty no aggregates are computed and the
no-matches message is shown; when it is non-empty exactly the four
aggregates are produced — the count, the mean rating and mean duration
rendered to two decimals, and the mean votes rounded to the nearest
integer. -/
theorem metrics_spec (df : List MovieRecord) (c : FilterCriteria) :
    (filtered_df df c = [] → renderResults df c = MetricsDisplay.noMatches) ∧
    (filtered_df df c ≠ [] →
      renderResults df c = MetricsDisplay.metrics (filtered_df df c).length
        (roundTo2 (((filtered_df df c).map (fun r => r.rating)).sum /
          ((filtered_df df c).length : ℚ)))
        (roundTo2 (((filtered_df df c).map (fun r => r.duration)).sum /
          ((filtered_df df c).length : ℚ)))
        (round (((filtered_df df c).map (fun r => (r.votes : ℚ))).sum /
          ((filtered_df df c).length : ℚ)))) := by
  constructor
  · intro h
    simp [renderResults, h]
  · intro h
    rw [renderResults]
    simp only [List.length_eq_zero]
    rw [if_neg h]
    simp [seriesMean, List.length_map]

/-- Witness for C3 at the spec's worked example: the subset is `[movieA]`,
and the metrics are count 1, average rating 7.50, average duration 2.00,
average votes 5000. -/
theorem metrics_spec_witness :
    filtered_df [movieA, movieB] exampleCriteria ≠ [] ∧
      renderResults [movieA, movieB] exampleCriteria =
        MetricsDisplay.metrics 1 (15 / 2) 2 5000 := by
  have hf : filtered_df [movieA, movieB] exampleCriteria = [movieA] := by
    norm_num [filtered_df, exampleCriteria, rowMask, passesDuration, movieA, movieB,
      List.filter]
  refine ⟨by rw [hf]; exact List.cons_ne_nil _ _, ?_⟩
  rw [(metrics_spec [movieA, movieB] exampleCriteria).2
    (by rw [hf]; exact List.cons_ne_nil _ _)]
  rw [hf]
  norm_num [movieA, roundTo2]

/-- The descending comparison on the Votes column used by
`nlargest(10, 'Votes')`: `a` may come before `b` when `a` has at least as
many votes. -/
def leVotes (a b : MovieRecord) : Bool := decide (b.votes ≤ a.votes)

/-- Line 201: `top_movies = filtered_df.nlargest(10, 'Votes')`.  Pandas
`nlargest` with the default `keep='first'` returns the rows ordered by the
column descending, ties resolved in favour of earlier rows, truncated to
`n`; this is a stable descending sort followed by `take 10`. -/
def top_movies (l : List MovieRecord) : List MovieRecord :=
  (l.mergeSort leVotes).take 10

/-- The spec's ranking order on index-tagged records: `a` comes before `b`
iff `a` has strictly more votes, or they tie on votes and `a` occurs no
later in the original subset. -/
def rankLE (a b : ℕ × MovieRecord) : Bool :=
  decide (b.2.votes < a.2.votes) || (decide (a.2.votes = b.2.votes) && decide (a.1 ≤ b.1))

/-- The subset "sorted by Votes descending with a stable tie-break": tag
each record with its original position, sort by (votes descending, position
ascending) — a total order, so this pins the result uniquely — and drop the
tags. -/
def sortedByVotesDesc (l : List MovieRecord) : List MovieRecord :=
  (l.enum.mergeSort rankLE).map (fun p => p.2)

/-- The spec's ranking relation coincides with the reverse-lexicographic
order `List.enumLE` induced by the descending votes comparison. -/
theorem rankLE_eq_enumLE : rankLE = List.enumLE leVotes := by
  funext a b
  rcases a with ⟨i, x⟩
  rcases b with ⟨j, y⟩
  simp only [rankLE, List.enumLE, leVotes]
  by_cases h1 : y.votes ≤ x.votes
  · by_cases h2 : x.votes ≤ y.votes
    · have he : x.votes = y.votes := Nat.le_antisymm h2 h1
      have hnlt : ¬ y.votes < x.votes := by omega
      simp [h1, h2, he, hnlt]
    · have hlt : y.votes < x.votes := by omega
      have hne : ¬ x.votes = y.votes := by omega
      simp [h1, h2, hlt, hne]
  · have hnlt : ¬ y.votes < x.votes := by omega
    have hne : ¬ x.votes = y.votes := by omega
    simp [h1, hnlt, hne]

/-- C4: the top-N ranking of line 201 equals the filtered subset stably
sorted by Votes descending (ties keep original relative order) truncated to
the first 10 records, and when the subset has at most 10 records it is the
whole subset so sorted. -/
theorem top_movies_spec (l : List MovieRecord) :
    top_movies l = (sortedByVotesDesc l).take 10 ∧
      (l.length ≤ 10 → top_movies l = sortedByVotesDesc l) := by
  have hs : sortedByVotesDesc l = l.mergeSort leVotes := by
    unfold sortedByVotesDesc
    rw [rankLE_eq_enumLE]
    exact List.mergeSort_enum
  refine ⟨by rw [hs]; rfl, fun h => ?_⟩
  rw [hs]
  unfold top_movies
  exact List.take_of_length_le (by simpa using h)

/-- Witness for C4 on a two-record subset (fewer than 10): the ranking is
the whole subset reordered with the higher-voted record first. -/
theorem top_movies_spec_witness :
    [movieB, movieA].length ≤ 10 ∧
      top_movies [movieB, movieA] = sortedByVotesDesc [movieB, movieA] :=
  ⟨by decide, (top_movies_spec [movieB, movieA]).2 (by decide)⟩

/-- Lines 59-61: `if custom_min != min_duration or custom_max != max_duration:`
replace the predefined pair with the custom slider pair. -/
def resolve_duration (pre custom : ℚ × ℚ) : ℚ × ℚ :=
  if custom.1 ≠ pre.1 ∨ custom.2 ≠ pre.2 then custom else pre

/-- Lines 93-94: `if custom_rating != min_rating: min_rating = custom_rating`. -/
def resolve_rating (pre custom : ℚ) : ℚ :=
  if custom ≠ pre then custom else pre

/-- Lines 126-127: `if custom_votes != min_votes: min_votes = custom_votes`. -/
def resolve_votes (pre custom : ℕ) : ℕ :=
  if custom ≠ pre then custom else pre

/-- C5: for each of the three dimensions independently, the effective bound
is the custom control's value whenever it differs from the value implied by
the selected predefined option, and the predefined value otherwise. -/
theorem override_precedence (dpre dcustom : ℚ × ℚ) (rpre rcustom : ℚ)
    (vpre vcustom : ℕ) :
    resolve_duration dpre dcustom = (if dcustom = dpre then dpre else dcustom) ∧
    resolve_rating rpre rcustom = (if rcustom = rpre then rpre else rcustom) ∧
    resolve_votes vpre vcustom = (if vcustom = vpre then vpre else vcustom) := by
  refine ⟨?_, ?_, ?_⟩
  · by_cases h : dcustom = dpre
    · rcases dpre with ⟨a, b⟩
      rcases dcustom with ⟨x, y⟩
      simp only [Prod.mk.injEq] at h
      simp [resolve_duration, h.1, h.2]
    · rw [if_neg h]
      rcases dpre with ⟨a, b⟩
      rcases dcustom with ⟨x, y⟩
      simp only [Prod.mk.injEq, not_and_or] at h
      rcases h with h | h <;> simp [resolve_duration, h]
  · by_cases h : rcustom = rpre
    · simp [resolve_rating, h]
    · simp [resolve_rating, h]
  · by_cases h : vcustom = vpre
    · simp [resolve_votes, h]
    · simp [resolve_votes, h]

/-- Line 23: `genres = sorted(df['Genre'].unique())` — the set of genres
occurring in the dataset (order is irrelevant to membership, so the sort is
dropped; `dedup` models `unique`). -/
def all_genres (df : List MovieRecord) : List String :=
  (df.map (fun r => r.genre)).dedup

/-- C6: filtering with an empty genre selection yields exactly the same
result as filtering with every genre occurring in the dataset selected,
holding the other criteria fixed. -/
theorem empty_genres_eq_all (df : List MovieRecord) (dmin dmax rmin : ℚ) (vmin : ℕ) :
    filtered_df df ⟨[], dmin, dmax, rmin, vmin⟩ =
      filtered_df df ⟨all_genres df, dmin, dmax, rmin, vmin⟩ := by
  rcases hd : df with _ | ⟨r, rs⟩
  · rfl
  · have hall : (r :: rs).filter
        (fun x => (all_genres (r :: rs)).contains x.genre) = r :: rs := by
      rw [List.filter_eq_self]
      intro x hx
      have : x.genre ∈ all_genres (r :: rs) := by
        rw [all_genres, List.mem_dedup]
        exact List.mem_map_of_mem (fun x : MovieRecord => x.genre) hx
      simpa [List.contains, List.elem_eq_mem] using this
    have hne : (all_genres (r :: rs)).isEmpty = false := by
      have : r.genre ∈ all_genres (r :: rs) := by
        rw [all_genres, List.mem_dedup]
        exact List.mem_map_of_mem (fun x : MovieRecord => x.genre) (List.mem_cons_self _ _)
      rcases hg : all_genres (r :: rs) with _ | _
      · rw [hg] at this
        exact absurd this (List.not_mem_nil _)
      · rfl
    simp only [filtered_df, List.isEmpty_nil, if_true, hne, Bool.false_eq_true,
      if_false, hall]
    rfl

/-- The widening preorder on criteria: every bound of `c'` is at least as
permissive as the corresponding bound of `c`.  Widening exactly one bound
and holding the rest fixed is the special case where the other components
are equal. -/
def widens (c c' : FilterCriteria) : Prop :=
  (c'.selected_genres = [] ∨
    (c.selected_genres ≠ [] ∧ c.selected_genres ⊆ c'.selected_genres)) ∧
  c'.min_duration ≤ c.min_duration ∧ c.max_duration ≤ c'.max_duration ∧
  c'.min_rating ≤ c.min_rating ∧ c'.min_votes ≤ c.min_votes

/-- C7: widening bounds (in particular, widening exactly one of them while
holding the others fixed) never loses records: every record in the filtered
result for the narrow criteria is in the result for the wide criteria. -/
theorem widen_monotone (df : List MovieRecord) (c c' : FilterCriteria)
    (hw : widens c c') (r : MovieRecord) (hr : r ∈ filtered_df df c) :
    r ∈ filtered_df df c' := by
  rw [mem_filtered] at hr ⊢
  obtain ⟨hmem, hg, h1, h2, h3, h4⟩ := hr
  obtain ⟨hg', hd1, hd2, hr', hv⟩ := hw
  refine ⟨hmem, ?_, le_trans hd1 h1, le_trans h2 hd2, le_trans hr' h3,
    le_trans hv h4⟩
  rcases hg' with h | ⟨hne, hsub⟩
  · exact Or.inl h
  · rcases hg with h | h
    · exact absurd h hne
    · exact Or.inr (hsub h)

/-- The narrow criteria of the spec's second worked example: minimum votes
raised to 1000. -/
def narrowCriteria : FilterCriteria := ⟨[], 0, 3, 7, 1000⟩

/-- Witness for C7: `narrowCriteria` widens to `exampleCriteria` by lowering
the votes bound to 0, and record A, which passes the narrow criteria, still
passes the wide ones. -/
theorem widen_monotone_witness :
    movieA ∈ filtered_df [movieA, movieB] exampleCriteria :=
  widen_monotone [movieA, movieB] narrowCriteria exampleCriteria
    ⟨Or.inl rfl, le_refl _, le_refl _, le_refl _, Nat.zero_le _⟩
    movieA
    ((mem_filtered).mpr ⟨List.mem_cons_self _ _, Or.inl rfl,
      by norm_num [movieA, narrowCriteria], by norm_num [movieA, narrowCriteria],
      by norm_num [movieA, narrowCriteria], by norm_num [movieA, narrowCriteria]⟩)

/-- C8: filtering is idempotent — applying the same criteria to the subset
already obtained returns that subset unchanged, in the same order. -/
theorem filtered_idempotent (df : List MovieRecord) (c : FilterCriteria) :
    filtered_df (filtered_df df c) c = filtered_df df c := by
  have hmask : ∀ r ∈ filtered_df df c, rowMask c r = true := by
    intro r hr
    rw [mem_filtered] at hr
    obtain ⟨-, -, h1, h2, h3, h4⟩ := hr
    simp [rowMask, passesDuration, h1, h2, h3, h4]
  rcases hg : c.selected_genres with _ | ⟨g, gs⟩
  · conv_lhs => rw [filtered_df]
    simp only [hg, List.isEmpty_nil, if_true]
    exact List.filter_eq_self.mpr hmask
  · have hgen : ∀ r ∈ filtered_df df c, ((g :: gs).contains r.genre) = true := by
      intro r hr
      rw [mem_filtered] at hr
      rcases hr.2.1 with h | h
      · rw [hg] at h
        exact absurd h (List.cons_ne_nil g gs)
      · rw [hg] at h
        simpa [List.contains, List.elem_eq_mem] using h
    conv_lhs => rw [filtered_df]
    simp only [hg, List.isEmpty_cons, Bool.false_eq_true, if_false]
    rw [List.filter_eq_self.mpr hgen, List.filter_eq_self.mpr hmask]

/-- The state the script manipulates from line 130 on: the base dataframe
`df` and the derived `filtered_df`. -/
structure AppState where
  df : List MovieRecord
  filtered : List MovieRecord
deriving DecidableEq, Repr

/-- Lines 130-140 as explicit state passing: `filtered_df = df.copy()`,
then each mask reassigns only `filtered_df`; `df` is never assigned. -/
def applyFiltersStep (s : AppState) (c : FilterCriteria) : AppState :=
  let s0 : AppState := ⟨s.df, s.df⟩
  let s1 : AppState :=
    if c.selected_genres.isEmpty then s0
    else ⟨s0.df, s0.filtered.filter (fun r => c.selected_genres.contains r.genre)⟩
  ⟨s1.df, s1.filtered.filter (rowMask c)⟩

/-- C9: the base dataset is never mutated by filtering — after the filter
runs, `df` holds exactly the records it held before, in the same order,
while `filtered` holds the pure function `filtered_df` of the old base. -/
theorem base_not_mutated (s : AppState) (c : FilterCriteria) :
    (applyFiltersStep s c).df = s.df ∧
      (applyFiltersStep s c).filtered = filtered_df s.df c := by
  unfold applyFiltersStep filtered_df
  by_cases h : c.selected_genres.isEmpty <;> simp [h]

/-- The four predefined duration ranges of lines 33-38, keyed by the radio
choice; `dmax` is `float(df['Duration'].max())`. -/
inductive DurationChoice where
  | allDurations : DurationChoice
  | short : DurationChoice
  | medium : DurationChoice
  | long : DurationChoice
deriving DecidableEq, Repr

/-- Lines 33-38: `"All Durations": (0.0, max)`, `"Short (< 2 hrs)": (0.0, 2.0)`,
`"Medium (2-3 hrs)": (2.0, 3.0)`, `"Long (> 3 hrs)": (3.0, max)`. -/
def duration_options (dmax : ℚ) : DurationChoice → ℚ × ℚ
  | DurationChoice.allDurations => (0, dmax)
  | DurationChoice.short => (0, 2)
  | DurationChoice.medium => (2, 3)
  | DurationChoice.long => (3, dmax)

/-- C10: because the mask comparisons of lines 136-137 are inclusive, the
strict-sounding labels overlap at their boundaries: duration exactly 2
passes under both "Short (< 2 hrs)" and "Medium (2-3 hrs)", and duration
exactly 3 passes under both "Medium (2-3 hrs)" and "Long (> 3 hrs)"
(provided the dataset maximum is at least 3, so that the Long range is
non-degenerate), assuming no custom-slider override. -/
theorem duration_boundaries (dmax : ℚ) (h : 3 ≤ dmax) :
    passesDuration (duration_options dmax DurationChoice.short).1
        (duration_options dmax DurationChoice.short).2 2 = true ∧
    passesDuration (duration_options dmax DurationChoice.medium).1
        (duration_options dmax DurationChoice.medium).2 2 = true ∧
    passesDuration (duration_options dmax DurationChoice.medium).1
        (duration_options dmax DurationChoice.medium).2 3 = true ∧
    passesDuration (duration_options dmax DurationChoice.long).1
        (duration_options dmax DurationChoice.long).2 3 = true := by
  refine ⟨?_, ?_, ?_, ?_⟩ <;> norm_num [passesDuration, duration_options, h]

/-- Witness for C10 with a dataset maximum duration of 4 hours. -/
theorem duration_boundaries_witness :
    (3 : ℚ) ≤ 4 ∧
      (passesDuration (duration_options 4 DurationChoice.short).1
          (duration_options 4 DurationChoice.short).2 2 = true ∧
       passesDuration (duration_options 4 DurationChoice.medium).1
          (duration_options 4 DurationChoice.medium).2 2 = true ∧
       passesDuration (duration_options 4 DurationChoice.medium).1
          (duration_options 4 DurationChoice.medium).2 3 = true ∧
       passesDuration (duration_options 4 DurationChoice.long).1
          (duration_options 4 DurationChoice.long).2 3 = true) :=
  ⟨by norm_num, duration_boundaries 4 (by norm_num)⟩
